import Mathlib

/-!
Verification of `src/scripts/check-cloudflare-dns.py`, a pre-flight validator
for DNS-01 certificate issuance with Cloudflare.

The script is embedded shallowly:

* Parsed JSON documents (the ACME storage file, Cloudflare API response
  bodies) are modelled by the inductive type `JVal`.  Python's dynamic
  attribute/membership errors (`AttributeError` when `.get` is called on a
  non-dict, `TypeError` when `in` or iteration is applied to a non-container)
  are modelled by `Except PyErr`.
* Files are modelled by their observable read outcomes (`StoreFile`,
  `EnvFile`): missing, read/parse failure, or content.
* The two network round trips of `test_cloudflare_api_connectivity` are split
  at the I/O boundary: the deterministic zone-resolution logic applied to the
  parsed list-zones response body is embedded as `resolve_zones`; in the
  orchestrator `main` the probe's overall outcome is an oracle field of the
  configuration, and an event trace records which checks actually ran.

JSON objects produced by Python's `json.load` have unique keys (a duplicate
key in the input text keeps the last value), so `JVal.obj` association lists
are read with a last-binding-wins lookup, matching Python dict semantics.
-/

namespace CFDNS

/-- A parsed JSON value (Python's `json.load` result).  Numbers are modelled
as integers; no claim touches fractional values. -/
inductive JVal where
  | null : JVal
  | boolean : Bool → JVal
  | num : Int → JVal
  | str : String → JVal
  | arr : List JVal → JVal
  | obj : List (String × JVal) → JVal

/-- An uncaught Python exception raised by the embedded code. -/
inductive PyErr where
  | attributeError : PyErr
  | typeError : PyErr
  deriving DecidableEq

/-- Dict lookup: the value bound to key `k`, last binding winning (Python
`json.load` keeps the last value for a duplicated key). -/
def jlookup : List (String × JVal) → String → Option JVal
  | [], _ => none
  | (k', v) :: rest, k =>
    match jlookup rest k with
    | some r => some r
    | none => if k' == k then some v else none

/-- Python truthiness of a parsed JSON value (`bool(v)`). -/
def truthy : JVal → Bool
  | .null => false
  | .boolean b => b
  | .num n => n != 0
  | .str s => s != ""
  | .arr xs => !xs.isEmpty
  | .obj fs => !fs.isEmpty

/-- Python `v == s` for a string literal `s`: equality on strings, `False`
against a value of any other type (Python's `==` across types). -/
def jvalEqStr (v : JVal) (s : String) : Bool :=
  match v with
  | .str s' => s' == s
  | _ => false

/-! Python string primitives, implemented by structural recursion over the
character list so that every concrete instance reduces definitionally. -/

/-- The characters Python's `str.strip()` removes: ASCII whitespace
(space, tab, newline, carriage return, vertical tab, form feed).  Exotic
Unicode whitespace is out of scope; no configuration in the claims uses
it. -/
def pyIsSpace (c : Char) : Bool :=
  c == ' ' || c == '\t' || c == '\n' || c == '\r' || c == '\x0b' || c == '\x0c'

/-- Python `s.strip()`. -/
def pyStrip (s : String) : String :=
  String.mk (((s.toList.dropWhile pyIsSpace).reverse.dropWhile pyIsSpace).reverse)

/-- Python `s.startswith(p)`. -/
def pyStartsWith (s p : String) : Bool :=
  p.toList.isPrefixOf s.toList

/-- Python `s.endswith(p)`. -/
def pyEndsWith (s p : String) : Bool :=
  p.toList.isSuffixOf s.toList

/-- Splitting a character list on a separator character, accumulating the
current fragment in reverse. -/
def splitCharAux (sep : Char) : List Char → List Char → List (List Char)
  | [], acc => [acc.reverse]
  | c :: cs, acc =>
    if c == sep then acc.reverse :: splitCharAux sep cs []
    else splitCharAux sep cs (c :: acc)

/-- Python `s.split(sep)` for a one-character separator (the script only
splits on `.` and `=`): `"".split(sep) == [""]`, empty fragments kept. -/
def pySplit (s : String) (sep : Char) : List String :=
  (splitCharAux sep s.toList []).map String.mk

/-- Python `sep.join(parts)`. -/
def pyJoin (sep : String) : List String → String
  | [] => ""
  | [x] => x
  | x :: y :: rest => x ++ sep ++ pyJoin sep (y :: rest)

/-- Whether `needle` occurs as a contiguous run in the list. -/
def containsAux (needle : List Char) : List Char → Bool
  | [] => needle.isEmpty
  | c :: cs => needle.isPrefixOf (c :: cs) || containsAux needle cs

/-- Python `needle in hay` on strings: substring occurrence. -/
def strContains (hay needle : String) : Bool :=
  containsAux needle.toList hay.toList

/-- Python `k in v` for a string `k`: key membership on dicts, element
membership on lists, substring test on strings; `TypeError` otherwise. -/
def pyIn (k : String) : JVal → Except PyErr Bool
  | .obj fs => .ok (fs.any (fun p => p.1 == k))
  | .arr xs => .ok (xs.any (fun v => jvalEqStr v k))
  | .str s => .ok (strContains s k)
  | _ => .error .typeError

/-- Python `v.get(k, dflt)`: defined on dicts only, `AttributeError` on any
other value. -/
def pyGetD (v : JVal) (k : String) (dflt : JVal) : Except PyErr JVal :=
  match v with
  | .obj fs => .ok ((jlookup fs k).getD dflt)
  | _ => .error .attributeError

/-- Python `v.get(k)` (default `None`). -/
def pyGetN (v : JVal) (k : String) : Except PyErr JVal :=
  pyGetD v k JVal.null

/-- Python iteration `for x in v`: the elements of a list, the characters of
a string (as one-character strings), the keys of a dict; `TypeError` on other
values. -/
def pyIterate : JVal → Except PyErr (List JVal)
  | .arr xs => .ok xs
  | .str s => .ok (s.toList.map (fun c => JVal.str (String.mk [c])))
  | .obj fs => .ok (fs.map (fun p => JVal.str p.1))
  | _ => .error .typeError

/-- The observable read outcome of the ACME storage file: missing on disk,
`open`/`json.load` raised (the caught branch at lines 139-143), or parsed
JSON content. -/
inductive StoreFile where
  | missing (path : String) : StoreFile
  | unreadable (err : String) : StoreFile
  | parsed (v : JVal) : StoreFile

/-- Inner loop of `check_certificates_exist_and_valid` (lines 166-179): scan
the certificate records for one domain; on the first record whose
`domain.main` equals the domain or `*.<domain>`, set `found` and `valid`,
record the message and break.  Returns `(found, valid, messages appended)`. -/
def certScan (domain : String) : List JVal → Except PyErr (Bool × Bool × List String)
  | [] => .ok (false, false, [])
  | cert :: rest => do
    let d ← pyGetD cert "domain" (JVal.obj [])
    let cert_domain ← pyGetD d "main" (JVal.str "")
    if jvalEqStr cert_domain domain || jvalEqStr cert_domain ("*." ++ domain) then
      .ok (true, true, ["Certificate found for " ++ domain])
    else
      certScan domain rest

/-- Outer loop of `check_certificates_exist_and_valid` (lines 162-186): for
each requested domain run `certScan` over the records (Python re-iterates the
`certificates` value on every domain, so a non-iterable value only raises
when at least one domain is processed).  Returns `(all_valid, messages)`. -/
def domainScan (certificates : JVal) : List String → Except PyErr (Bool × List String)
  | [] => .ok (true, [])
  | domain :: rest => do
    let certs ← pyIterate certificates
    let (found, valid, msgs) ← certScan domain certs
    let (restValid, restMsgs) ← domainScan certificates rest
    if !found then
      .ok (false, msgs ++ ["No certificate found for " ++ domain] ++ restMsgs)
    else if !valid then
      .ok (false, msgs ++ ["Certificate for " ++ domain ++ " may be expired"] ++ restMsgs)
    else
      .ok (restValid, msgs ++ restMsgs)

/-- `check_certificates_exist_and_valid(acme_storage_path, domains)`
(lines 111-189).  Python control flow, in order: missing file; caught
read/parse failure; `if not acme_data or "dns" not in acme_data` (the `or`
short-circuits, so truthiness is tested before membership);
`acme_data.get("dns", {}).get("Certificates", [])`; emptiness; the per-domain
scan; finally `"; ".join(messages)`. -/
def check_certificates_exist_and_valid (store : StoreFile) (domains : List String) :
    Except PyErr (Bool × String) :=
  match store with
  | .missing path => .ok (false, "ACME storage file not found at " ++ path)
  | .unreadable e => .ok (false, "Failed to read ACME storage: " ++ e)
  | .parsed acme_data =>
    if !truthy acme_data then
      .ok (false, "No DNS resolver certificates found in ACME storage")
    else do
      let hasDns ← pyIn "dns" acme_data
      if !hasDns then
        .ok (false, "No DNS resolver certificates found in ACME storage")
      else do
        let dns_data ← pyGetD acme_data "dns" (JVal.obj [])
        let certificates ← pyGetD dns_data "Certificates" (JVal.arr [])
        if !truthy certificates then
          .ok (false, "No certificates found in DNS resolver storage")
        else do
          let (all_valid, messages) ← domainScan certificates domains
          .ok (all_valid, pyJoin "; " messages)

/-- A Python dict of strings, modelled as an association list read with
last-binding-wins lookup (`d[k] = v` appends a binding). -/
abbrev EnvMap := List (String × String)

/-- Lookup in an `EnvMap`, last binding winning. -/
def envGet : EnvMap → String → Option String
  | [], _ => none
  | (k', v) :: rest, k =>
    match envGet rest k with
    | some r => some r
    | none => if k' == k then some v else none

/-- `get_env_value(key, env_vars)` (lines 104-109): the live process
environment takes priority over the parsed file mapping, and a key absent
from both yields the empty string. -/
def get_env_value (key : String) (osEnviron : EnvMap) (env_vars : EnvMap) : String :=
  match envGet osEnviron key with
  | some v => v
  | none =>
    match envGet env_vars key with
    | some v => v
    | none => ""

/-- Quote stripping of `load_env_file` (lines 91-95): one enclosing pair of
double quotes, else one enclosing pair of single quotes, is removed. -/
def stripQuotes (value : String) : String :=
  if pyStartsWith value "\"" && pyEndsWith value "\"" then
    String.mk (value.toList.drop 1).dropLast
  else if pyStartsWith value "'" && pyEndsWith value "'" then
    String.mk (value.toList.drop 1).dropLast
  else value

/-- One iteration of the line loop of `load_env_file` (lines 77-97): strip
the line; skip blank and `#` comment lines; skip a line with no `=`;
otherwise split on the first `=`, trim key and value, strip quotes, assign. -/
def parseEnvLine (env_vars : EnvMap) (rawLine : String) : EnvMap :=
  let line := pyStrip rawLine
  if line == "" || pyStartsWith line "#" then env_vars
  else
    match pySplit line '=' with
    | [] => env_vars
    | [_] => env_vars
    | key :: part :: parts =>
      let value := pyJoin "=" (part :: parts)
      env_vars ++ [(pyStrip key, stripQuotes (pyStrip value))]

/-- The observable read outcome of the `.env` file: missing on disk, an
exception raised inside the `try` block while reading/decoding (the caught
branch at lines 98-100, which discards everything parsed so far), or the
file's lines. -/
inductive EnvFile where
  | missing : EnvFile
  | readFailure (linesRead : List String) (err : String) : EnvFile
  | readable (lines : List String) : EnvFile

/-- `load_env_file(env_file_path)` (lines 64-102). -/
def load_env_file : EnvFile → EnvMap
  | .missing => []
  | .readFailure _ _ => []
  | .readable lines => lines.foldl parseEnvLine []

/-- The remediation text of `validate_cloudflare_credentials`
(lines 207-225, after `.strip()`). -/
def credentialRemediation : String :=
  "Cloudflare API token is required but not found.\n"
  ++ "\n"
  ++ "Please set one of the following environment variables in your .env file:\n"
  ++ "  - CF_DNS_API_TOKEN (preferred for DNS-01 challenges)\n"
  ++ "  - CF_API_TOKEN (legacy option)\n"
  ++ "\n"
  ++ "To create a Cloudflare API token:\n"
  ++ "  1. Log in to your Cloudflare dashboard\n"
  ++ "  2. Go to My Profile > API Tokens\n"
  ++ "  3. Click \"Create Token\"\n"
  ++ "  4. Use the \"Edit zone DNS\" template\n"
  ++ "  5. Set permissions: Zone > DNS > Edit\n"
  ++ "  6. Select the zone(s) for your domain\n"
  ++ "  7. Copy the token and add to .env:\n"
  ++ "     CF_DNS_API_TOKEN=your-token-here\n"
  ++ "\n"
  ++ "For more info: https://go-acme.github.io/lego/dns/cloudflare/"

/-- `validate_cloudflare_credentials(env_vars)` (lines 191-228): the
preferred variable `CF_DNS_API_TOKEN`, then the legacy `CF_API_TOKEN`; the
first non-empty value is the token.  Python returns `(True, token, None)` or
`(False, None, error_msg)`; the two optional slots are `Option`s here.  The
function reads `os.environ` through `get_env_value`, so the process
environment is an explicit argument. -/
def validate_cloudflare_credentials (osEnviron : EnvMap) (env_vars : EnvMap) :
    Bool × Option String × Option String :=
  let cf_token := get_env_value "CF_DNS_API_TOKEN" osEnviron env_vars
  let cf_token :=
    if cf_token == "" then get_env_value "CF_API_TOKEN" osEnviron env_vars else cf_token
  if cf_token == "" then (false, none, some credentialRemediation)
  else (true, some cf_token, none)

/-- Base-domain heuristic of `test_cloudflare_api_connectivity`
(lines 260-266): with more than two dot-separated labels, join the last two;
otherwise the domain itself. -/
def base_domain (domain : String) : String :=
  let domain_parts := pySplit domain '.'
  if domain_parts.length > 2 then
    pyJoin "." (domain_parts.drop (domain_parts.length - 2))
  else
    domain

mutual

/-- Python `repr` of a parsed JSON value, used by `str` (and so by f-string
interpolation) on non-string values.  Escaping of special characters inside
string payloads is not modelled; the theorems below only interpolate
string-valued fields, where `pyStr` bypasses `pyRepr` entirely. -/
def pyRepr : JVal → String
  | .null => "None"
  | .boolean true => "True"
  | .boolean false => "False"
  | .num n => toString n
  | .str s => "'" ++ s ++ "'"
  | .arr xs => "[" ++ pyReprItems xs ++ "]"
  | .obj fs => "\x7b" ++ pyReprFields fs ++ "\x7d"

/-- `", ".join` of the `repr`s of a list's items. -/
def pyReprItems : List JVal → String
  | [] => ""
  | [x] => pyRepr x
  | x :: y :: rest => pyRepr x ++ ", " ++ pyReprItems (y :: rest)

/-- `", ".join` of the `repr`s of a dict's entries. -/
def pyReprFields : List (String × JVal) → String
  | [] => ""
  | [(k, v)] => "'" ++ k ++ "': " ++ pyRepr v
  | (k, v) :: f :: rest => "'" ++ k ++ "': " ++ pyRepr v ++ ", " ++ pyReprFields (f :: rest)

end

/-- Python `str` of a parsed JSON value (what an f-string interpolates): the
string itself for strings, `repr`-like text otherwise. -/
def pyStr : JVal → String
  | .str s => s
  | v => pyRepr v

/-- The zone-not-found error of `test_cloudflare_api_connectivity`
(lines 305-316): the requested domain, the base candidate, one `  - name`
line per accessible zone, and the fixed remediation bullets. -/
def zoneNotFoundMsg (domain base : String) (accessible_zones : List JVal) : String :=
  "Domain '" ++ domain ++ "' (base: '" ++ base ++ "') not found in accessible zones.\n"
  ++ "\nZones accessible with this token:\n"
  ++ String.join (accessible_zones.map (fun z => "  - " ++ pyStr z ++ "\n"))
  ++ "\nPossible causes:\n"
  ++ "  1. Domain is not added to your Cloudflare account\n"
  ++ "  2. API token doesn't have permission for this zone\n"
  ++ "  3. DOMAIN in .env doesn't match the Cloudflare zone name\n"
  ++ "\nTo fix:\n"
  ++ "  1. Verify the domain is added to Cloudflare\n"
  ++ "  2. Recreate the API token and include this zone\n"
  ++ "  3. Update DOMAIN in .env to match a zone listed above"

/-- One entry of the protocol-error report (lines 283 and 333):
`f"{e.get('code', 'unknown')}: {e.get('message', 'unknown error')}"`. -/
def apiErrorEntry (e : JVal) : Except PyErr String := do
  let c ← pyGetD e "code" (JVal.str "unknown")
  let m ← pyGetD e "message" (JVal.str "unknown error")
  .ok (pyStr c ++ ": " ++ pyStr m)

/-- Outcome of the zone-resolution phase of the probe: a final failure
message, or the matched zone object (which the script then subjects to the
second, DNS-records network round trip). -/
inductive ZonesOutcome where
  | failure (msg : String) : ZonesOutcome
  | matched (domain_zone : JVal) : ZonesOutcome

/-- The zone loop (lines 295-302): append each zone's name to
`accessible_zones`, and break on the first zone whose name equals the domain
or the base candidate.  Returns the names appended and the matched zone. -/
def zoneScan (domain base : String) : List JVal → Except PyErr (List JVal × Option JVal)
  | [] => .ok ([], none)
  | zone :: rest => do
    let zone_name ← pyGetD zone "name" (JVal.str "")
    if jvalEqStr zone_name domain || jvalEqStr zone_name base then
      .ok ([zone_name], some zone)
    else do
      let (names, dz) ← zoneScan domain base rest
      .ok (zone_name :: names, dz)

/-- The deterministic core of `test_cloudflare_api_connectivity` applied to
the parsed body of the list-zones response (lines 281-317): protocol-level
failure with joined error entries; no accessible zones; the scan for the
requested domain or its base candidate; the zone-not-found report naming
the accessible zones; or the matched zone.  Line 304's guard
`if not domain_zone:` is a Python truthiness test: it fires both when no
zone matched (`domain_zone` still `None`) and when the matched zone object
is itself falsy (the empty object), so both cases produce the
zone-not-found failure — with the names appended before the loop broke. -/
def resolve_zones (data : JVal) (domain : String) : Except PyErr ZonesOutcome := do
  let success ← pyGetN data "success"
  if !truthy success then do
    let errorsV ← pyGetD data "errors" (JVal.arr [])
    let errs ← pyIterate errorsV
    let error_msgs ← errs.mapM apiErrorEntry
    .ok (.failure ("API call failed: " ++ pyJoin ", " error_msgs))
  else do
    let zonesV ← pyGetD data "result" (JVal.arr [])
    if !truthy zonesV then
      .ok (.failure "API token has no access to any zones")
    else do
      let zones ← pyIterate zonesV
      let (accessible_zones, domain_zone) ← zoneScan domain (base_domain domain) zones
      match domain_zone with
      | none => .ok (.failure (zoneNotFoundMsg domain (base_domain domain) accessible_zones))
      | some z =>
        if truthy z then .ok (.matched z)
        else .ok (.failure (zoneNotFoundMsg domain (base_domain domain) accessible_zones))

/-- The verdict of one run (§3 of the spec). -/
inductive Verdict where
  | skip : Verdict
  | pass : Verdict
  | fail : Verdict
  deriving DecidableEq

/-- The externally observable checks of one run, in execution order: the
certificate-store inspection, the credential presence check, and the
network probe (`test_cloudflare_api_connectivity`). -/
inductive Event where
  | certCheck : Event
  | credCheck : Event
  | apiCall : Event
  deriving DecidableEq

/-- What one invocation of the script produces: its exit code, its verdict,
and the trace of checks it performed. -/
structure RunResult where
  exitCode : Nat
  verdict : Verdict
  events : List Event
  deriving DecidableEq

/-- One invocation's inputs: the `.env` file, the process environment, the
ACME storage file, and — abstracting the two network round trips — the
outcome `test_cloudflare_api_connectivity` would produce if invoked
(`(success, error_message, zone_info)`). -/
structure Config where
  envFile : EnvFile
  osEnviron : EnvMap
  acmeStorage : StoreFile
  apiOutcome : Bool × Option String × Option JVal

/-- The domain list built by `main` (lines 416-418): the primary domain,
plus `sub.domain` when a subdomain is configured (non-empty). -/
def requestedDomains (domain subdomain : String) : List String :=
  if subdomain != "" then [domain, subdomain ++ "." ++ domain] else [domain]

/-- `main()` (lines 367-472), from the point where the configuration has
been loaded: skip (exit 0) unless `LE_CHALLENGE` is exactly `dns`; skip
(exit 0) unless `LE_DNS_PROVIDER` is exactly `cloudflare`; fail (exit 1) on
a missing or placeholder domain; pass (exit 0) without further checks when
the store already covers every requested domain; fail (exit 1) when no
credential is found; otherwise consult the API probe and exit 0 or 1 with
its outcome.  The event trace records which checks ran. -/
def main (cfg : Config) : Except PyErr RunResult :=
  let env_vars := load_env_file cfg.envFile
  let le_challenge := get_env_value "LE_CHALLENGE" cfg.osEnviron env_vars
  let le_dns_provider := get_env_value "LE_DNS_PROVIDER" cfg.osEnviron env_vars
  let domain := get_env_value "DOMAIN" cfg.osEnviron env_vars
  let subdomain := get_env_value "SUBDOMAIN" cfg.osEnviron env_vars
  if le_challenge != "dns" then .ok ⟨0, .skip, []⟩
  else if le_dns_provider != "cloudflare" then .ok ⟨0, .skip, []⟩
  else if domain == "" || domain == "paste-domain-here" then .ok ⟨1, .fail, []⟩
  else do
    let domains := requestedDomains domain subdomain
    let (certs_valid, _cert_status) ← check_certificates_exist_and_valid cfg.acmeStorage domains
    if certs_valid then .ok ⟨0, .pass, [.certCheck]⟩
    else
      let (creds_valid, _api_token, _cred_error) :=
        validate_cloudflare_credentials cfg.osEnviron env_vars
      if !creds_valid then .ok ⟨1, .fail, [.certCheck, .credCheck]⟩
      else
        let (api_success, _api_error, _zone_info) := cfg.apiOutcome
        if api_success then .ok ⟨0, .pass, [.certCheck, .credCheck, .apiCall]⟩
        else .ok ⟨1, .fail, [.certCheck, .credCheck, .apiCall]⟩

/-! ### Spec-side notions

The following definitions restate, in the spec's vocabulary, what the
embedded code computes: a record's main label, when a requested domain is
satisfied, the per-domain message, and the shape conditions under which the
Python code runs without raising. -/

/-- The record's domain descriptor, `cert.get("domain", {})`, for a
well-shaped record (an object). -/
def certDomainVal (c : JVal) : JVal :=
  match c with
  | .obj fs => (jlookup fs "domain").getD (JVal.obj [])
  | _ => JVal.obj []

/-- The record's main label, `cert.get("domain", {}).get("main", "")`, for a
well-shaped record. -/
def certMainVal (c : JVal) : JVal :=
  match certDomainVal c with
  | .obj gs => (jlookup gs "main").getD (JVal.str "")
  | _ => JVal.str ""

/-- A well-shaped certificate record: an object whose `domain` field, when
present, is itself an object — exactly the shapes on which the Python
attribute accesses of the record scan succeed. -/
def certWF (c : JVal) : Bool :=
  match c with
  | .obj fs =>
    match jlookup fs "domain" with
    | none => true
    | some (.obj _) => true
    | some _ => false
  | _ => false

/-- The spec's satisfaction notion for one record: its main label equals the
domain exactly or equals `*.<domain>`. -/
def certSatisfies (c : JVal) (domain : String) : Bool :=
  jvalEqStr (certMainVal c) domain || jvalEqStr (certMainVal c) ("*." ++ domain)

/-- A requested domain is satisfied iff some record satisfies it. -/
def domainSatisfied (certs : List JVal) (domain : String) : Bool :=
  certs.any (fun c => certSatisfies c domain)

/-- The per-domain outcome message. -/
def domainMsg (certs : List JVal) (domain : String) : String :=
  if domainSatisfied certs domain then "Certificate found for " ++ domain
  else "No certificate found for " ++ domain

/-- Parsed store shapes on which `check_certificates_exist_and_valid` is
guaranteed to return rather than raise: a falsy value, or an object whose
`dns` entry (when present) is an object whose `Certificates` entry (when
present) is a sequence of well-shaped records. -/
def storeSafe : JVal → Bool
  | .obj fs =>
    match jlookup fs "dns" with
    | none => true
    | some (.obj gs) =>
      match jlookup gs "Certificates" with
      | none => true
      | some (.arr cs) => cs.all certWF
      | some _ => false
    | some _ => false
  | v => !truthy v

/-- A well-shaped zone of a list-zones response: an object (so that
`zone.get("name", "")` succeeds). -/
def zoneWF (z : JVal) : Bool :=
  match z with
  | .obj _ => true
  | _ => false

/-- The zone's registered name, `zone.get("name", "")`, for a well-shaped
zone. -/
def zoneNameVal (z : JVal) : JVal :=
  match z with
  | .obj gs => (jlookup gs "name").getD (JVal.str "")
  | _ => JVal.str ""

/-- The selection criterion of the zone loop: the zone's name equals the
requested domain or the base-domain candidate. -/
def zoneMatches (domain base : String) (z : JVal) : Bool :=
  jvalEqStr (zoneNameVal z) domain || jvalEqStr (zoneNameVal z) base

/-! ### Helper lemmas -/

theorem any_key_eq_isSome_jlookup (fs : List (String × JVal)) (k : String) :
    (fs.any fun p => p.1 == k) = (jlookup fs k).isSome := by
  induction fs with
  | nil => simp [jlookup]
  | cons p rest ih =>
    obtain ⟨k', v⟩ := p
    simp only [List.any_cons, jlookup, ih]
    cases h : jlookup rest k with
    | some r => simp
    | none =>
      by_cases hk : k' == k
      · simp [hk]
      · simp [Bool.or_comm, hk]

theorem jlookup_ne_nil {fs : List (String × JVal)} {k : String} {v : JVal}
    (h : jlookup fs k = some v) : fs ≠ [] := by
  intro hfs
  subst hfs
  simp [jlookup] at h

theorem certMain_of_wf (c : JVal) (h : certWF c = true) :
    pyGetD c "domain" (JVal.obj []) = .ok (certDomainVal c) ∧
    pyGetD (certDomainVal c) "main" (JVal.str "") = .ok (certMainVal c) := by
  cases c with
  | obj fs =>
    refine ⟨rfl, ?_⟩
    simp only [certWF] at h
    cases hd : jlookup fs "domain" with
    | none => simp [certDomainVal, certMainVal, pyGetD, hd, jlookup]
    | some d =>
      cases d with
      | obj gs => simp [certDomainVal, certMainVal, pyGetD, hd]
      | null => rw [hd] at h; simp at h
      | boolean b => rw [hd] at h; simp at h
      | num n => rw [hd] at h; simp at h
      | str s => rw [hd] at h; simp at h
      | arr xs => rw [hd] at h; simp at h
  | null => simp [certWF] at h
  | boolean b => simp [certWF] at h
  | num n => simp [certWF] at h
  | str s => simp [certWF] at h
  | arr xs => simp [certWF] at h

theorem certScan_wf (domain : String) :
    ∀ certs : List JVal, (∀ c ∈ certs, certWF c = true) →
      certScan domain certs =
        .ok (domainSatisfied certs domain, domainSatisfied certs domain,
          if domainSatisfied certs domain then ["Certificate found for " ++ domain] else [])
  | [], _ => by simp [certScan, domainSatisfied]
  | c :: rest, h => by
    have hc : certWF c = true := h c (List.mem_cons_self c rest)
    have hrest : ∀ c' ∈ rest, certWF c' = true :=
      fun c' hc' => h c' (List.mem_cons_of_mem c hc')
    have hd := (certMain_of_wf c hc).1
    have hm := (certMain_of_wf c hc).2
    have ih := certScan_wf domain rest hrest
    simp only [domainSatisfied, certSatisfies] at ih ⊢
    simp only [certScan, hd, hm, bind, Except.bind, List.any_cons]
    by_cases hs :
        (jvalEqStr (certMainVal c) domain || jvalEqStr (certMainVal c) ("*." ++ domain)) = true
    · simp [hs]
    · rw [Bool.not_eq_true] at hs
      simp [hs, ih]

theorem domainScan_wf (certs : List JVal) (hwf : ∀ c ∈ certs, certWF c = true) :
    ∀ domains : List String,
      domainScan (JVal.arr certs) domains =
        .ok (domains.all (fun d => domainSatisfied certs d),
          domains.map (fun d => domainMsg certs d))
  | [] => by simp [domainScan]
  | domain :: rest => by
    have ih := domainScan_wf certs hwf rest
    have hscan := certScan_wf domain certs hwf
    simp only [domainScan, pyIterate, bind, Except.bind, hscan, ih, List.all_cons, List.map_cons]
    by_cases hs : domainSatisfied certs domain = true
    · simp [hs, domainMsg]
    · rw [Bool.not_eq_true] at hs
      simp [hs, domainMsg]

/-- `check_certificates_exist_and_valid` on a store whose structure is the
expected one — an object with a `dns` object holding a non-empty
`Certificates` list of well-shaped records — returns exactly the spec-side
all-satisfied flag and the `"; "`-join of the per-domain messages. -/
theorem check_certificates_wf (fs gs : List (String × JVal)) (certs : List JVal)
    (domains : List String)
    (hdns : jlookup fs "dns" = some (JVal.obj gs))
    (hcerts : jlookup gs "Certificates" = some (JVal.arr certs))
    (hne : certs ≠ [])
    (hwf : ∀ c ∈ certs, certWF c = true) :
    check_certificates_exist_and_valid (StoreFile.parsed (JVal.obj fs)) domains =
      .ok (domains.all (fun d => domainSatisfied certs d),
        pyJoin "; " (domains.map (fun d => domainMsg certs d))) := by
  have hfs : fs ≠ [] := jlookup_ne_nil hdns
  have htruthy : truthy (JVal.obj fs) = true := by
    simp [truthy, List.isEmpty_iff, hfs]
  have hin : pyIn "dns" (JVal.obj fs) = .ok true := by
    simp [pyIn, any_key_eq_isSome_jlookup, hdns]
  have hget1 : pyGetD (JVal.obj fs) "dns" (JVal.obj []) = .ok (JVal.obj gs) := by
    simp [pyGetD, hdns]
  have hget2 : pyGetD (JVal.obj gs) "Certificates" (JVal.arr []) = .ok (JVal.arr certs) := by
    simp [pyGetD, hcerts]
  have htr2 : truthy (JVal.arr certs) = true := by
    simp [truthy, List.isEmpty_iff, hne]
  simp only [check_certificates_exist_and_valid, htruthy, hin, hget1, hget2, htr2, bind,
    Except.bind, Bool.not_true, Bool.false_eq_true, if_false, domainScan_wf certs hwf domains]

theorem zoneName_of_wf (z : JVal) (h : zoneWF z = true) :
    pyGetD z "name" (JVal.str "") = .ok (zoneNameVal z) := by
  cases z <;> simp_all [zoneWF, pyGetD, zoneNameVal]

theorem zoneScan_find_none (domain base : String) :
    ∀ zones : List JVal, (∀ z ∈ zones, zoneWF z = true) →
      zones.find? (zoneMatches domain base) = none →
      zoneScan domain base zones = .ok (zones.map zoneNameVal, none)
  | [], _, _ => by simp [zoneScan]
  | zone :: rest, h, hfind => by
    have hz : zoneWF zone = true := h zone (List.mem_cons_self zone rest)
    have hrest : ∀ z ∈ rest, zoneWF z = true :=
      fun z hz' => h z (List.mem_cons_of_mem zone hz')
    rw [List.find?_cons] at hfind
    by_cases hm : zoneMatches domain base zone = true
    · simp [hm] at hfind
    · rw [Bool.not_eq_true] at hm
      rw [hm] at hfind
      have ih := zoneScan_find_none domain base rest hrest hfind
      simp only [zoneMatches] at hm
      simp only [zoneScan, zoneName_of_wf zone hz, bind, Except.bind, hm, ih, List.map_cons]
      simp [hm]

theorem zoneScan_find_some (domain base : String) :
    ∀ zones : List JVal, ∀ z : JVal, (∀ z' ∈ zones, zoneWF z' = true) →
      zones.find? (zoneMatches domain base) = some z →
      zoneScan domain base zones =
        .ok ((zones.takeWhile (fun z' => !zoneMatches domain base z')).map zoneNameVal
          ++ [zoneNameVal z], some z)
  | [], z, _, hfind => by simp at hfind
  | zone :: rest, z, h, hfind => by
    have hz : zoneWF zone = true := h zone (List.mem_cons_self zone rest)
    have hrest : ∀ z' ∈ rest, zoneWF z' = true :=
      fun z' hz' => h z' (List.mem_cons_of_mem zone hz')
    rw [List.find?_cons] at hfind
    by_cases hm : zoneMatches domain base zone = true
    · rw [hm] at hfind
      simp only [Option.some.injEq] at hfind
      subst hfind
      rw [List.takeWhile_cons]
      simp only [hm, Bool.not_true, List.map_nil, List.nil_append]
      simp only [zoneMatches] at hm
      simp [zoneScan, zoneName_of_wf zone hz, bind, Except.bind, hm]
    · rw [Bool.not_eq_true] at hm
      rw [hm] at hfind
      have ih := zoneScan_find_some domain base rest z hrest hfind
      rw [List.takeWhile_cons]
      simp only [hm, Bool.not_false, List.map_cons, List.cons_append]
      simp only [zoneMatches] at hm
      simp [zoneScan, zoneName_of_wf zone hz, bind, Except.bind, hm, ih]

/-! ### The claims -/

/-- C1: whenever the resolved `LE_CHALLENGE` is not exactly `dns`, or it is
`dns` but the resolved `LE_DNS_PROVIDER` is not exactly `cloudflare`, `main`
terminates with verdict Skip and exit code 0, for every other configuration
field, and performs no certificate-store check, no credential check, and no
network call (empty event trace). -/
theorem C1_skip_when_inapplicable (cfg : Config)
    (h : get_env_value "LE_CHALLENGE" cfg.osEnviron (load_env_file cfg.envFile) ≠ "dns"
      ∨ (get_env_value "LE_CHALLENGE" cfg.osEnviron (load_env_file cfg.envFile) = "dns"
        ∧ get_env_value "LE_DNS_PROVIDER" cfg.osEnviron (load_env_file cfg.envFile)
            ≠ "cloudflare")) :
    main cfg = .ok ⟨0, Verdict.skip, []⟩ := by
  rcases h with h | ⟨h1, h2⟩
  · simp [main, h]
  · simp [main, h1, h2]

/-- Witness for C1 at a concrete configuration (`LE_CHALLENGE=http`). -/
theorem C1_witness :
    main ⟨EnvFile.missing, [("LE_CHALLENGE", "http")], StoreFile.missing "acme.json",
        (true, none, none)⟩ = .ok ⟨0, Verdict.skip, []⟩ :=
  C1_skip_when_inapplicable _ (Or.inl (by decide))

/-- C2: in a run with `LE_CHALLENGE=dns`, `LE_DNS_PROVIDER=cloudflare`, a
configured domain, and a certificate-store check reporting every requested
domain matched, `main` terminates with verdict Pass and exit code 0, and the
event trace contains only the store check: the credential check is skipped
and `test_cloudflare_api_connectivity` (the only network call) is never
invoked. -/
theorem C2_pass_skips_probe (cfg : Config) (s : String)
    (hlc : get_env_value "LE_CHALLENGE" cfg.osEnviron (load_env_file cfg.envFile) = "dns")
    (hlp : get_env_value "LE_DNS_PROVIDER" cfg.osEnviron (load_env_file cfg.envFile)
      = "cloudflare")
    (hd1 : get_env_value "DOMAIN" cfg.osEnviron (load_env_file cfg.envFile) ≠ "")
    (hd2 : get_env_value "DOMAIN" cfg.osEnviron (load_env_file cfg.envFile)
      ≠ "paste-domain-here")
    (hcert : check_certificates_exist_and_valid cfg.acmeStorage
        (requestedDomains (get_env_value "DOMAIN" cfg.osEnviron (load_env_file cfg.envFile))
          (get_env_value "SUBDOMAIN" cfg.osEnviron (load_env_file cfg.envFile)))
      = .ok (true, s)) :
    main cfg = .ok ⟨0, Verdict.pass, [Event.certCheck]⟩ := by
  simp [main, hlc, hlp, hd1, hd2, hcert, bind, Except.bind]

/-- Witness for C2: certificates present for the configured domain, while
the probe oracle would fail — the run still passes without consulting it. -/
theorem C2_witness :
    main ⟨EnvFile.readable ["LE_CHALLENGE=dns", "LE_DNS_PROVIDER=cloudflare",
        "DOMAIN=example.com"], [],
      StoreFile.parsed (JVal.obj [("dns", JVal.obj [("Certificates",
        JVal.arr [JVal.obj [("domain", JVal.obj [("main", JVal.str "example.com")])]])])]),
      (false, some "probe would fail", none)⟩ = .ok ⟨0, Verdict.pass, [Event.certCheck]⟩ :=
  C2_pass_skips_probe _ "Certificate found for example.com"
    (by decide) (by decide) (by decide) (by decide) (by rfl)

/-- C3 counterexample: a store satisfying the claim's well-formedness — a
JSON object whose `dns` resolver holds a non-empty `Certificates` sequence —
on which the function raises `AttributeError` instead of returning, because
the record `42` has no `.get` attribute in Python. -/
theorem C3_counterexample :
    check_certificates_exist_and_valid
        (StoreFile.parsed (JVal.obj [("dns",
          JVal.obj [("Certificates", JVal.arr [JVal.num 42])])]))
        ["example.com"]
      = .error PyErr.attributeError := rfl

/-- C3 (amended): for a well-formed store whose records are moreover
well-shaped (each record an object whose `domain` field, when present, is an
object), `check_certificates_exist_and_valid` deems a requested domain
satisfied iff some record's main label equals that domain exactly or equals
`*.<domain>`, returns `true` exactly when every requested domain is
satisfied, and its status string is the per-domain messages, in
requested-domain order, joined with `"; "`. -/
theorem C3_store_check (fs gs : List (String × JVal)) (certs : List JVal)
    (domains : List String)
    (hdns : jlookup fs "dns" = some (JVal.obj gs))
    (hcerts : jlookup gs "Certificates" = some (JVal.arr certs))
    (hne : certs ≠ [])
    (hwf : ∀ c ∈ certs, certWF c = true) :
    check_certificates_exist_and_valid (StoreFile.parsed (JVal.obj fs)) domains =
      .ok (domains.all (fun d => domainSatisfied certs d),
        pyJoin "; " (domains.map (fun d => domainMsg certs d))) :=
  check_certificates_wf fs gs certs domains hdns hcerts hne hwf

/-- Witness for C3 at a concrete store: one record for `example.com`, one
matched and one unmatched requested domain. -/
theorem C3_witness :
    check_certificates_exist_and_valid
        (StoreFile.parsed (JVal.obj [("dns", JVal.obj [("Certificates",
          JVal.arr [JVal.obj [("domain", JVal.obj [("main", JVal.str "example.com")])]])])]))
        ["example.com", "nope.org"]
      = .ok (false, "Certificate found for example.com; No certificate found for nope.org") :=
  (C3_store_check
      [("dns", JVal.obj [("Certificates",
        JVal.arr [JVal.obj [("domain", JVal.obj [("main", JVal.str "example.com")])]])])]
      [("Certificates",
        JVal.arr [JVal.obj [("domain", JVal.obj [("main", JVal.str "example.com")])]])]
      [JVal.obj [("domain", JVal.obj [("main", JVal.str "example.com")])]]
      ["example.com", "nope.org"] rfl rfl (List.cons_ne_nil _ _) (by decide)).trans rfl

/-- C4 counterexample: the parsed JSON array `["dns"]` — a shape the claim
says must degrade to a `(false, reason)` return — instead raises
`AttributeError`: the membership test `"dns" in ["dns"]` succeeds, and the
code then calls `.get` on the list. -/
theorem C4_counterexample :
    check_certificates_exist_and_valid (StoreFile.parsed (JVal.arr [JVal.str "dns"]))
        ["example.com"]
      = .error PyErr.attributeError := rfl

/-- C4 (amended): a missing store file or a caught read/parse failure
returns `(false, reason)` without raising, and a parsed document returns
normally whenever it is falsy or is an object whose `dns` entry (when
present) is an object whose `Certificates` entry (when present) is a
sequence of well-shaped records; other parsed shapes (a JSON array
containing `"dns"`, a record whose `domain` field is not an object, …) can
raise. -/
theorem C4_no_raise_when_safe (store : StoreFile) (domains : List String)
    (h : ∀ v, store = StoreFile.parsed v → storeSafe v = true) :
    ∃ b s, check_certificates_exist_and_valid store domains = .ok (b, s) := by
  cases store with
  | missing p => exact ⟨_, _, rfl⟩
  | unreadable e => exact ⟨_, _, rfl⟩
  | parsed v =>
    have hv := h v rfl
    by_cases ht : truthy v = true
    · cases v with
      | obj fs =>
        simp only [check_certificates_exist_and_valid, ht, Bool.not_true, Bool.false_eq_true,
          if_false, pyIn, any_key_eq_isSome_jlookup, bind, Except.bind]
        cases hdns : jlookup fs "dns" with
        | none =>
          exact ⟨false, "No DNS resolver certificates found in ACME storage",
            by simp [hdns]⟩
        | some dv =>
          simp only [storeSafe, hdns] at hv
          cases dv with
          | obj gs =>
            simp only [hdns, Option.isSome_some, Bool.not_true, Bool.false_eq_true, if_false,
              pyGetD, Option.getD_some]
            cases hc : jlookup gs "Certificates" with
            | none =>
              exact ⟨false, "No certificates found in DNS resolver storage",
                by simp [hc, truthy]⟩
            | some cv =>
              simp only [hc] at hv
              cases cv with
              | arr cs =>
                simp only [hc, Option.getD_some]
                by_cases hemp : cs.isEmpty = true
                · exact ⟨false, "No certificates found in DNS resolver storage",
                    by simp [truthy, hemp]⟩
                · have hwf : ∀ c ∈ cs, certWF c = true := by
                    intro c hcmem
                    exact List.all_eq_true.mp hv c hcmem
                  rw [Bool.not_eq_true] at hemp
                  simp [truthy, hemp, domainScan_wf cs hwf domains]
              | null => simp at hv
              | boolean b => simp at hv
              | num n => simp at hv
              | str s => simp at hv
              | obj gs' => simp at hv
          | null => simp at hv
          | boolean b => simp at hv
          | num n => simp at hv
          | str s => simp at hv
          | arr xs => simp at hv
      | null => simp [truthy] at ht
      | boolean b =>
        simp only [truthy] at ht
        simp only [storeSafe, truthy, ht] at hv
        simp at hv
      | num n =>
        simp only [storeSafe, ht] at hv
        simp at hv
      | str s =>
        simp only [storeSafe, ht] at hv
        simp at hv
      | arr xs =>
        simp only [storeSafe, ht] at hv
        simp at hv
    · rw [Bool.not_eq_true] at ht
      exact ⟨false, "No DNS resolver certificates found in ACME storage",
        by simp [check_certificates_exist_and_valid, ht]⟩

/-- Witness for C4: a parsed object with an empty certificate list returns
normally. -/
theorem C4_witness :
    ∃ b s, check_certificates_exist_and_valid
        (StoreFile.parsed (JVal.obj [("dns", JVal.obj [("Certificates", JVal.arr [])])]))
        ["example.com"]
      = .ok (b, s) :=
  C4_no_raise_when_safe
    (StoreFile.parsed (JVal.obj [("dns", JVal.obj [("Certificates", JVal.arr [])])]))
    ["example.com"] (fun v hv => by cases hv; rfl)

/-- C5: the base-domain candidate splits on `.` and keeps the last two
labels when more than two exist, else the whole domain; in particular
`app.example.com ↦ example.com`, `example.com ↦ example.com`, and
`app.example.co.uk ↦ co.uk`. -/
theorem C5_base_domain :
    (∀ d : String, base_domain d =
      (if (pySplit d '.').length > 2
       then pyJoin "." ((pySplit d '.').drop ((pySplit d '.').length - 2))
       else d))
    ∧ base_domain "app.example.com" = "example.com"
    ∧ base_domain "example.com" = "example.com"
    ∧ base_domain "app.example.co.uk" = "co.uk" := by
  refine ⟨fun d => rfl, ?_, ?_, ?_⟩ <;> rfl

/-- C6 counterexample: the selection clause of the claim fails at the
requested domain `""` with the single zone `{}`: the empty object's
defaulted name `""` equals the requested domain — the claimed selection
criterion holds, second conjunct — yet the probe does not select it: line
304's `if not domain_zone:` truthiness test fires on the falsy matched
zone and the probe returns the zone-not-found failure. -/
theorem C6_counterexample :
    resolve_zones (JVal.obj [("success", JVal.boolean true),
        ("result", JVal.arr [JVal.obj []])]) ""
      = .ok (ZonesOutcome.failure (zoneNotFoundMsg "" "" [JVal.str ""]))
    ∧ zoneMatches "" (base_domain "") (JVal.obj []) = true :=
  ⟨rfl, rfl⟩

/-- C6 (amended): on a successful list-zones response whose zones are
well-shaped objects: an empty zone list fails with the no-zones-accessible
error; else the scan stops at the first zone, in response order, whose name
equals the exact requested domain or the base-domain candidate, and the
probe reports that zone as matched provided it is truthy (a non-empty
object); when the first matching zone is the empty object — possible only
for the empty requested domain, whose defaulted name `""` it carries — the
probe instead fails with the zone-not-found error naming the zones scanned
up to and including it; and when no zone matches, the probe fails with an
error message that lists the name of every returned zone, in order. -/
theorem C6_zone_selection (fs : List (String × JVal)) (sv : JVal) (zones : List JVal)
    (domain : String)
    (hs : jlookup fs "success" = some sv) (hsv : truthy sv = true)
    (hr : jlookup fs "result" = some (JVal.arr zones))
    (hz : ∀ z ∈ zones, zoneWF z = true) :
    resolve_zones (JVal.obj fs) domain =
      .ok (if zones.isEmpty then
          ZonesOutcome.failure "API token has no access to any zones"
        else
          match zones.find? (zoneMatches domain (base_domain domain)) with
          | some z =>
            if truthy z then ZonesOutcome.matched z
            else ZonesOutcome.failure (zoneNotFoundMsg domain (base_domain domain)
              ((zones.takeWhile
                  (fun z' => !zoneMatches domain (base_domain domain) z')).map zoneNameVal
                ++ [zoneNameVal z]))
          | none => ZonesOutcome.failure
              (zoneNotFoundMsg domain (base_domain domain) (zones.map zoneNameVal))) := by
  have hget1 : pyGetN (JVal.obj fs) "success" = .ok sv := by
    simp [pyGetN, pyGetD, hs]
  have hget2 : pyGetD (JVal.obj fs) "result" (JVal.arr []) = .ok (JVal.arr zones) := by
    simp [pyGetD, hr]
  simp only [resolve_zones, hget1, hget2, bind, Except.bind, hsv, Bool.not_true,
    Bool.false_eq_true, if_false]
  by_cases hemp : zones.isEmpty = true
  · simp [truthy, hemp]
  · rw [Bool.not_eq_true] at hemp
    have harr : truthy (JVal.arr zones) = true := by simp [truthy, hemp]
    simp only [harr, Bool.not_true, Bool.false_eq_true, if_false, pyIterate]
    cases hfind : zones.find? (zoneMatches domain (base_domain domain)) with
    | none =>
      rw [zoneScan_find_none domain (base_domain domain) zones hz hfind]
      simp [hemp]
    | some z =>
      rw [zoneScan_find_some domain (base_domain domain) zones z hz hfind]
      by_cases htz : truthy z = true
      · simp [hemp, htz]
      · rw [Bool.not_eq_true] at htz
        simp [hemp, htz]

/-- Witness for C6: two zones, the second matching the base candidate of
`app.example.com`; the scan selects it. -/
theorem C6_witness :
    resolve_zones (JVal.obj [("success", JVal.boolean true),
        ("result", JVal.arr [JVal.obj [("name", JVal.str "other.com")],
          JVal.obj [("name", JVal.str "example.com")]])]) "app.example.com"
      = .ok (ZonesOutcome.matched (JVal.obj [("name", JVal.str "example.com")])) :=
  (C6_zone_selection [("success", JVal.boolean true),
      ("result", JVal.arr [JVal.obj [("name", JVal.str "other.com")],
        JVal.obj [("name", JVal.str "example.com")]])]
    (JVal.boolean true)
    [JVal.obj [("name", JVal.str "other.com")], JVal.obj [("name", JVal.str "example.com")]]
    "app.example.com" rfl rfl rfl (by decide)).trans rfl

/-- C7: the credential validator consults exactly `CF_DNS_API_TOKEN` then
`CF_API_TOKEN`, the first non-empty value is the credential (the preferred
value wins even when the legacy one is set), and when both are empty it
returns `ok = false` with token `none` and a remediation message naming both
accepted variables. -/
theorem C7_credential_priority (osEnviron env_vars : EnvMap) :
    ((get_env_value "CF_DNS_API_TOKEN" osEnviron env_vars ≠ "" →
        validate_cloudflare_credentials osEnviron env_vars =
          (true, some (get_env_value "CF_DNS_API_TOKEN" osEnviron env_vars), none))
      ∧ (get_env_value "CF_DNS_API_TOKEN" osEnviron env_vars = "" →
          get_env_value "CF_API_TOKEN" osEnviron env_vars ≠ "" →
          validate_cloudflare_credentials osEnviron env_vars =
            (true, some (get_env_value "CF_API_TOKEN" osEnviron env_vars), none))
      ∧ (get_env_value "CF_DNS_API_TOKEN" osEnviron env_vars = "" →
          get_env_value "CF_API_TOKEN" osEnviron env_vars = "" →
          validate_cloudflare_credentials osEnviron env_vars =
            (false, none, some credentialRemediation)))
    ∧ strContains credentialRemediation "CF_DNS_API_TOKEN" = true
    ∧ strContains credentialRemediation "CF_API_TOKEN" = true := by
  refine ⟨⟨?_, ?_, ?_⟩, by decide, by decide⟩
  · intro h
    simp [validate_cloudflare_credentials, h]
  · intro h1 h2
    simp [validate_cloudflare_credentials, h1, h2]
  · intro h1 h2
    simp [validate_cloudflare_credentials, h1, h2]

/-- Witness for C7: with both variables set in the file mapping, the
preferred one wins. -/
theorem C7_witness :
    validate_cloudflare_credentials []
        [("CF_API_TOKEN", "legacy-token"), ("CF_DNS_API_TOKEN", "preferred-token")]
      = (true, some "preferred-token", none) :=
  ((C7_credential_priority [] [("CF_API_TOKEN", "legacy-token"),
      ("CF_DNS_API_TOKEN", "preferred-token")]).1.1 (by decide)).trans rfl

/-- C8: configuration parsing — a missing file yields the empty mapping;
blank lines and (trimmed) `#` comment lines are skipped; a line with no `=`
is skipped leaving earlier keys untouched; any other line is split on the
first `=` with key and value trimmed and one matching pair of enclosing
quotes stripped from the value; `DOMAIN="example.com"` and
`DOMAIN=example.com` both map `DOMAIN` to `example.com`. -/
theorem C8_env_parsing :
    load_env_file EnvFile.missing = []
    ∧ (∀ (env : EnvMap) (line : String),
        pyStrip line = "" ∨ pyStartsWith (pyStrip line) "#" = true →
        parseEnvLine env line = env)
    ∧ (∀ (env : EnvMap) (line x : String),
        pySplit (pyStrip line) '=' = [x] → parseEnvLine env line = env)
    ∧ (∀ (env : EnvMap) (line key part : String) (parts : List String),
        pyStartsWith (pyStrip line) "#" = false →
        pySplit (pyStrip line) '=' = key :: part :: parts →
        parseEnvLine env line =
          env ++ [(pyStrip key, stripQuotes (pyStrip (pyJoin "=" (part :: parts))))])
    ∧ parseEnvLine [] "DOMAIN=\"example.com\"" = [("DOMAIN", "example.com")]
    ∧ parseEnvLine [] "DOMAIN=example.com" = [("DOMAIN", "example.com")]
    ∧ load_env_file (EnvFile.readable ["no equals sign here", "A=1"]) = [("A", "1")] := by
  refine ⟨rfl, ?_, ?_, ?_, rfl, rfl, rfl⟩
  · intro env line h
    rcases h with h | h
    · simp [parseEnvLine, h]
    · simp [parseEnvLine, h]
  · intro env line x hsplit
    simp only [parseEnvLine]
    by_cases hb : (pyStrip line == "" || pyStartsWith (pyStrip line) "#") = true
    · simp [hb]
    · rw [Bool.not_eq_true] at hb
      rw [hb]
      simp only [Bool.false_eq_true, if_false, hsplit]
  · intro env line key part parts hcomment hsplit
    have hne : (pyStrip line == "") = false := by
      cases hq : (pyStrip line == "") with
      | false => rfl
      | true =>
        exfalso
        have hblank : pyStrip line = "" := eq_of_beq hq
        rw [hblank] at hsplit
        have : pySplit "" '=' = [""] := rfl
        rw [this] at hsplit
        simp at hsplit
    simp only [parseEnvLine, hne, hcomment, Bool.or_self, Bool.false_eq_true, if_false, hsplit]

/-- Witness for C8 at concrete lines: a comment line and a no-`=` line are
skipped without touching earlier keys. -/
theorem C8_witness :
    parseEnvLine [("A", "1")] "  # comment" = [("A", "1")] :=
  C8_env_parsing.2.1 [("A", "1")] "  # comment" (Or.inr (by decide))

/-- C9 counterexample: the claim's final clause — the status string never
contains `may be expired` — fails when a requested domain's own name
contains that text: the per-domain outcome is the ordinary not-found
message, yet the status contains the substring. -/
theorem C9_counterexample :
    check_certificates_exist_and_valid
        (StoreFile.parsed (JVal.obj [("dns", JVal.obj [("Certificates",
          JVal.arr [JVal.obj [("domain", JVal.obj [("main", JVal.str "site.org")])]])])]))
        ["a may be expired"]
      = .ok (false, "No certificate found for a may be expired")
    ∧ strContains "No certificate found for a may be expired" "may be expired" = true :=
  ⟨rfl, by decide⟩

/-- C9 (amended): the found-but-not-valid branch is unreachable — the record
scan always reports `valid = found`, for every record list, well-shaped or
not — so on well-shaped records every per-domain outcome is exactly
`Certificate found for <domain>` or `No certificate found for <domain>`
(the expired message is never produced); the status string, being the
`"; "`-join of these outcomes, contains `may be expired` only when a
requested domain's own name contains it. -/
theorem C9_expired_branch_unreachable :
    (∀ (domain : String) (certs : List JVal) (found valid : Bool) (msgs : List String),
        certScan domain certs = .ok (found, valid, msgs) → valid = found)
    ∧ (∀ (certs : List JVal) (domains : List String), (∀ c ∈ certs, certWF c = true) →
        domainScan (JVal.arr certs) domains =
          .ok (domains.all (fun d => domainSatisfied certs d),
            domains.map (fun d => domainMsg certs d)))
    ∧ (∀ (certs : List JVal) (domain : String),
        domainMsg certs domain = "Certificate found for " ++ domain
        ∨ domainMsg certs domain = "No certificate found for " ++ domain) := by
  refine ⟨?_, fun certs domains hwf => domainScan_wf certs hwf domains, ?_⟩
  · intro domain certs
    induction certs with
    | nil =>
      intro found valid msgs h
      simp only [certScan, Except.ok.injEq, Prod.mk.injEq] at h
      rw [← h.1, ← h.2.1]
    | cons c rest ih =>
      intro found valid msgs h
      simp only [certScan, bind, Except.bind] at h
      cases hd : pyGetD c "domain" (JVal.obj []) with
      | error e => rw [hd] at h; simp at h
      | ok d =>
        rw [hd] at h
        simp only [] at h
        cases hm : pyGetD d "main" (JVal.str "") with
        | error e => rw [hm] at h; simp at h
        | ok m =>
          rw [hm] at h
          simp only [] at h
          by_cases hc : (jvalEqStr m domain || jvalEqStr m ("*." ++ domain)) = true
          · rw [hc] at h
            simp only [if_true, Except.ok.injEq, Prod.mk.injEq] at h
            rw [← h.1, ← h.2.1]
          · rw [Bool.not_eq_true] at hc
            rw [hc] at h
            simp only [Bool.false_eq_true, if_false] at h
            exact ih found valid msgs h
  · intro certs domain
    by_cases hs : domainSatisfied certs domain = true
    · left
      simp [domainMsg, hs]
    · right
      rw [Bool.not_eq_true] at hs
      simp [domainMsg, hs]

/-- Witness for C9 at a concrete record list and domain pair: one found, one
not-found message, never the expired one. -/
theorem C9_witness :
    domainScan (JVal.arr [JVal.obj [("domain", JVal.obj [("main", JVal.str "*.wild.org")])]])
        ["wild.org", "other.net"]
      = .ok (false, ["Certificate found for wild.org", "No certificate found for other.net"]) :=
  (C9_expired_branch_unreachable.2.1
    [JVal.obj [("domain", JVal.obj [("main", JVal.str "*.wild.org")])]]
    ["wild.org", "other.net"] (by decide)).trans rfl

/-- C10: an exception caught while reading or decoding the configuration
file makes `load_env_file` return the empty mapping, discarding every
binding the discarded partial parse would have produced (shown concretely:
the same lines parse to a non-empty mapping when the read succeeds). -/
theorem C10_read_failure_discards :
    (∀ (lines : List String) (err : String),
      load_env_file (EnvFile.readFailure lines err) = [])
    ∧ load_env_file (EnvFile.readFailure ["DOMAIN=example.com"] "io error") = []
    ∧ load_env_file (EnvFile.readable ["DOMAIN=example.com"]) = [("DOMAIN", "example.com")] :=
  ⟨fun _ _ => rfl, rfl, rfl⟩

end CFDNS
